import Mathlib

set_option maxHeartbeats 1600000

/-!
Verification development for the nvidia-installer orchestration core
(`install-from-cwd.c`): the manifest parser, the Package model, kernel
module acquisition, and the install orchestrator, shallowly embedded in
Lean.  External collaborators (user prompts, probes, build tools) are
modelled as oracles supplied in an environment record; the control flow
of the embedded functions follows the C source line by line.
-/

namespace NvInstaller

/-- Strings are modelled as lists of characters. -/
abbrev Str := List Char

/-- Whitespace inside a logical line.
Modelled from the spec: the tokenizer (`read_next_word`, misc.c, not in
src/) splits a line into "whitespace-separated words". -/
def isSpaceChar (c : Char) : Bool := c = ' ' || c = '\t'

/-- Modelled from the spec: repeatedly reading a word with
`read_next_word` (misc.c, not in src/) until none remains yields the
maximal non-whitespace runs of the line, in order. -/
def lineTokens (s : Str) : List Str :=
  (s.splitOnP isSpaceChar).filter (fun w => w ≠ [])

/-- Modelled from the spec: `get_next_line` (misc.c, not in src/)
walks the mapped manifest buffer returning one logical line per call,
a present-but-empty line being returned as the empty string; the
manifest is therefore taken as the list of its logical lines, and
reading past the last line yields nothing.  This models the buffer of
`parse_manifest` as a `List Str`. -/
def manifestLines (lines : List Str) : List Str := lines

/-- Modelled from the spec: `mode_string_to_mode` (not in src/) decodes
the octal permission-mode string, failing when the string does not
decode as a valid mode. -/
def mode_string_to_mode (s : Str) : Option Nat :=
  if s ≠ [] && s.all (fun c => '0' ≤ c && c ≤ '7') then
    some (s.foldl (fun a c => a * 8 + (c.toNat - '0'.toNat)) 0)
  else
    none

/-! File type flags.  The numeric values come from `nvidia-installer.h`,
which is not in src/; each primary file type is one distinct bit, and
the qualifier classes are further distinct bits, as the spec's data
model describes (`flags`: bitset combining exactly one file-type tag
with zero or more qualifier bits). -/

def FILE_TYPE_KERNEL_MODULE_SRC : Nat := 2 ^ 0
def FILE_TYPE_KERNEL_MODULE_CMD : Nat := 2 ^ 1
def FILE_TYPE_OPENGL_HEADER : Nat := 2 ^ 2
def FILE_TYPE_CUDA_ICD : Nat := 2 ^ 3
def FILE_TYPE_OPENGL_LIB : Nat := 2 ^ 4
def FILE_TYPE_CUDA_LIB : Nat := 2 ^ 5
def FILE_TYPE_LIBGL_LA : Nat := 2 ^ 6
def FILE_TYPE_XLIB_STATIC_LIB : Nat := 2 ^ 7
def FILE_TYPE_XLIB_SHARED_LIB : Nat := 2 ^ 8
def FILE_TYPE_TLS_LIB : Nat := 2 ^ 9
def FILE_TYPE_UTILITY_LIB : Nat := 2 ^ 10
def FILE_TYPE_DOCUMENTATION : Nat := 2 ^ 11
def FILE_TYPE_MANPAGE : Nat := 2 ^ 12
def FILE_TYPE_EXPLICIT_PATH : Nat := 2 ^ 13
def FILE_TYPE_OPENGL_SYMLINK : Nat := 2 ^ 14
def FILE_TYPE_CUDA_SYMLINK : Nat := 2 ^ 15
def FILE_TYPE_XLIB_SYMLINK : Nat := 2 ^ 16
def FILE_TYPE_TLS_SYMLINK : Nat := 2 ^ 17
def FILE_TYPE_UTILITY_LIB_SYMLINK : Nat := 2 ^ 18
def FILE_TYPE_INSTALLER_BINARY : Nat := 2 ^ 19
def FILE_TYPE_UTILITY_BINARY : Nat := 2 ^ 20
def FILE_TYPE_UTILITY_BIN_SYMLINK : Nat := 2 ^ 21
def FILE_TYPE_DOT_DESKTOP : Nat := 2 ^ 22
def FILE_TYPE_XMODULE_SHARED_LIB : Nat := 2 ^ 23
def FILE_TYPE_XMODULE_SYMLINK : Nat := 2 ^ 24
def FILE_TYPE_GLX_MODULE_SHARED_LIB : Nat := 2 ^ 25
def FILE_TYPE_GLX_MODULE_SYMLINK : Nat := 2 ^ 26
def FILE_TYPE_XMODULE_NEWSYM : Nat := 2 ^ 27
def FILE_TYPE_VDPAU_LIB : Nat := 2 ^ 28
def FILE_TYPE_VDPAU_SYMLINK : Nat := 2 ^ 29
def FILE_TYPE_NVCUVID_LIB : Nat := 2 ^ 30
def FILE_TYPE_NVCUVID_SYMLINK : Nat := 2 ^ 31

def FILE_CLASS_NATIVE : Nat := 2 ^ 32
def FILE_CLASS_COMPAT32 : Nat := 2 ^ 33
def FILE_CLASS_CLASSIC_TLS : Nat := 2 ^ 34
def FILE_CLASS_NEW_TLS : Nat := 2 ^ 35

/-- The closed set of primary file-type tag bits. -/
def typeBitsList : List Nat :=
  [FILE_TYPE_KERNEL_MODULE_SRC, FILE_TYPE_KERNEL_MODULE_CMD,
   FILE_TYPE_OPENGL_HEADER, FILE_TYPE_CUDA_ICD, FILE_TYPE_OPENGL_LIB,
   FILE_TYPE_CUDA_LIB, FILE_TYPE_LIBGL_LA, FILE_TYPE_XLIB_STATIC_LIB,
   FILE_TYPE_XLIB_SHARED_LIB, FILE_TYPE_TLS_LIB, FILE_TYPE_UTILITY_LIB,
   FILE_TYPE_DOCUMENTATION, FILE_TYPE_MANPAGE, FILE_TYPE_EXPLICIT_PATH,
   FILE_TYPE_OPENGL_SYMLINK, FILE_TYPE_CUDA_SYMLINK,
   FILE_TYPE_XLIB_SYMLINK, FILE_TYPE_TLS_SYMLINK,
   FILE_TYPE_UTILITY_LIB_SYMLINK, FILE_TYPE_INSTALLER_BINARY,
   FILE_TYPE_UTILITY_BINARY, FILE_TYPE_UTILITY_BIN_SYMLINK,
   FILE_TYPE_DOT_DESKTOP, FILE_TYPE_XMODULE_SHARED_LIB,
   FILE_TYPE_XMODULE_SYMLINK, FILE_TYPE_GLX_MODULE_SHARED_LIB,
   FILE_TYPE_GLX_MODULE_SYMLINK, FILE_TYPE_XMODULE_NEWSYM,
   FILE_TYPE_VDPAU_LIB, FILE_TYPE_VDPAU_SYMLINK,
   FILE_TYPE_NVCUVID_LIB, FILE_TYPE_NVCUVID_SYMLINK]

/-- Modelled from the spec: `FILE_TYPE_HAVE_ARCH` (nvidia-installer.h,
not in src/) is the union of the type tags that accept an architecture
qualifier ("some libs/symlinks have an arch field"). -/
def FILE_TYPE_HAVE_ARCH : Nat :=
  FILE_TYPE_OPENGL_LIB ||| FILE_TYPE_CUDA_LIB |||
  FILE_TYPE_OPENGL_SYMLINK ||| FILE_TYPE_CUDA_SYMLINK |||
  FILE_TYPE_TLS_LIB ||| FILE_TYPE_TLS_SYMLINK |||
  FILE_TYPE_VDPAU_LIB ||| FILE_TYPE_VDPAU_SYMLINK |||
  FILE_TYPE_NVCUVID_LIB ||| FILE_TYPE_NVCUVID_SYMLINK

/-- Modelled from the spec: `FILE_TYPE_HAVE_CLASS` (nvidia-installer.h,
not in src/) is the union of the type tags that accept a TLS class
qualifier ("some libs/symlinks have a class field"). -/
def FILE_TYPE_HAVE_CLASS : Nat :=
  FILE_TYPE_TLS_LIB ||| FILE_TYPE_TLS_SYMLINK

/-- Modelled from the spec: `FILE_TYPE_HAVE_PATH` (nvidia-installer.h,
not in src/) is the union of the type tags that carry an install path
("libs and documentation have a path field"). -/
def FILE_TYPE_HAVE_PATH : Nat :=
  FILE_TYPE_OPENGL_HEADER ||| FILE_TYPE_CUDA_ICD |||
  FILE_TYPE_OPENGL_LIB ||| FILE_TYPE_CUDA_LIB |||
  FILE_TYPE_LIBGL_LA ||| FILE_TYPE_XLIB_STATIC_LIB |||
  FILE_TYPE_XLIB_SHARED_LIB ||| FILE_TYPE_TLS_LIB |||
  FILE_TYPE_UTILITY_LIB ||| FILE_TYPE_DOCUMENTATION |||
  FILE_TYPE_MANPAGE ||| FILE_TYPE_EXPLICIT_PATH |||
  FILE_TYPE_DOT_DESKTOP ||| FILE_TYPE_XMODULE_SHARED_LIB |||
  FILE_TYPE_GLX_MODULE_SHARED_LIB ||| FILE_TYPE_VDPAU_LIB |||
  FILE_TYPE_NVCUVID_LIB

/-- Modelled from the spec: `FILE_TYPE_HAVE_TARGET`
(nvidia-installer.h, not in src/) is the union of the type tags that
carry a symlink target ("symlinks and newsyms have a target"). -/
def FILE_TYPE_HAVE_TARGET : Nat :=
  FILE_TYPE_OPENGL_SYMLINK ||| FILE_TYPE_CUDA_SYMLINK |||
  FILE_TYPE_XLIB_SYMLINK ||| FILE_TYPE_TLS_SYMLINK |||
  FILE_TYPE_UTILITY_LIB_SYMLINK ||| FILE_TYPE_UTILITY_BIN_SYMLINK |||
  FILE_TYPE_XMODULE_SYMLINK ||| FILE_TYPE_GLX_MODULE_SYMLINK |||
  FILE_TYPE_XMODULE_NEWSYM ||| FILE_TYPE_VDPAU_SYMLINK |||
  FILE_TYPE_NVCUVID_SYMLINK

/-- The token-to-tag table of the strcmp chain in `parse_manifest`
(install-from-cwd.c lines 708-775), in source order. -/
def typeTokenTable : List (Str × Nat) :=
  [("KERNEL_MODULE_SRC".data, FILE_TYPE_KERNEL_MODULE_SRC),
   ("KERNEL_MODULE_CMD".data, FILE_TYPE_KERNEL_MODULE_CMD),
   ("OPENGL_HEADER".data, FILE_TYPE_OPENGL_HEADER),
   ("CUDA_ICD".data, FILE_TYPE_CUDA_ICD),
   ("OPENGL_LIB".data, FILE_TYPE_OPENGL_LIB),
   ("CUDA_LIB".data, FILE_TYPE_CUDA_LIB),
   ("LIBGL_LA".data, FILE_TYPE_LIBGL_LA),
   ("XLIB_STATIC_LIB".data, FILE_TYPE_XLIB_STATIC_LIB),
   ("XLIB_SHARED_LIB".data, FILE_TYPE_XLIB_SHARED_LIB),
   ("TLS_LIB".data, FILE_TYPE_TLS_LIB),
   ("UTILITY_LIB".data, FILE_TYPE_UTILITY_LIB),
   ("DOCUMENTATION".data, FILE_TYPE_DOCUMENTATION),
   ("MANPAGE".data, FILE_TYPE_MANPAGE),
   ("EXPLICIT_PATH".data, FILE_TYPE_EXPLICIT_PATH),
   ("OPENGL_SYMLINK".data, FILE_TYPE_OPENGL_SYMLINK),
   ("CUDA_SYMLINK".data, FILE_TYPE_CUDA_SYMLINK),
   ("XLIB_SYMLINK".data, FILE_TYPE_XLIB_SYMLINK),
   ("TLS_SYMLINK".data, FILE_TYPE_TLS_SYMLINK),
   ("UTILITY_LIB_SYMLINK".data, FILE_TYPE_UTILITY_LIB_SYMLINK),
   ("INSTALLER_BINARY".data, FILE_TYPE_INSTALLER_BINARY),
   ("UTILITY_BINARY".data, FILE_TYPE_UTILITY_BINARY),
   ("UTILITY_BIN_SYMLINK".data, FILE_TYPE_UTILITY_BIN_SYMLINK),
   ("DOT_DESKTOP".data, FILE_TYPE_DOT_DESKTOP),
   ("XMODULE_SHARED_LIB".data, FILE_TYPE_XMODULE_SHARED_LIB),
   ("XMODULE_SYMLINK".data, FILE_TYPE_XMODULE_SYMLINK),
   ("GLX_MODULE_SHARED_LIB".data, FILE_TYPE_GLX_MODULE_SHARED_LIB),
   ("GLX_MODULE_SYMLINK".data, FILE_TYPE_GLX_MODULE_SYMLINK),
   ("XMODULE_NEWSYM".data, FILE_TYPE_XMODULE_NEWSYM),
   ("VDPAU_LIB".data, FILE_TYPE_VDPAU_LIB),
   ("VDPAU_SYMLINK".data, FILE_TYPE_VDPAU_SYMLINK),
   ("NVCUVID_LIB".data, FILE_TYPE_NVCUVID_LIB),
   ("NVCUVID_LIB_SYMLINK".data, FILE_TYPE_NVCUVID_SYMLINK)]

/-- The strcmp chain of `parse_manifest` (install-from-cwd.c lines
708-775) mapping a file-type token to its tag bit, first match first;
an unrecognized token yields `none` (the `else` arm that frees the
flag and jumps to `invalid_manifest_file`). -/
def typeFlagOf (w : Str) : Option Nat :=
  (typeTokenTable.find? (fun pr => pr.1 = w)).map (fun pr => pr.2)

/-- One entry of the Package model (struct PackageEntry). -/
structure PackageEntry where
  file : Str
  name : Str
  path : Option Str
  target : Option Str
  dst : Option Str
  flags : Nat
  mode : Nat
  inode : Nat
  device : Nat
deriving Repr, DecidableEq

/-- The Package model (struct Package); `num_entries` is
`entries.length`. -/
structure Package where
  description : Str
  version : Str
  kernel_interface_filename : Str
  kernel_module_name : Str
  bad_modules : List Str
  bad_module_filenames : List Str
  kernel_module_build_directory : Str
  precompiled_kernel_interface_directory : Str
  entries : List PackageEntry
deriving Repr, DecidableEq

/-- A `stat` oracle: inode and device numbers of a file in the working
directory, or `none` when the file does not exist. -/
abbrev StatFn := Str → Option (Nat × Nat)

/-- Inode/device pair captured at entry creation: the stat result when
the file exists, else both zero (install-from-cwd.c lines 850-856). -/
def statOr0 (st : StatFn) (f : Str) : Nat × Nat := (st f).getD (0, 0)

/-- The basename pointer computed at install-from-cwd.c lines 839-842:
`strrchr(file, '/')` advanced past the slash when a slash exists, and
`file` itself otherwise.  In both cases this is the maximal suffix of
`file` containing no slash. -/
def nameOf (f : Str) : Str := (f.reverse.takeWhile (fun c => c ≠ '/')).reverse

/-- Modelled from the spec: `remove_trailing_slashes` (not in src/)
strips trailing slashes from the two directory fields. -/
def removeTrailingSlashes (s : Str) : Str :=
  (s.reverse.dropWhile (fun c => c = '/')).reverse

/-- Errors of the manifest parser; `invalid` carries the 1-based line
number reported by the `invalid_manifest_file` label. -/
inductive ManifestError where
  | notFound
  | openFailed
  | invalid (line : Nat)
deriving Repr, DecidableEq

/-- One file-entry line of the manifest body (install-from-cwd.c lines
663-861): file name, mode string, type token, then the qualifier and
path/target tokens the type's capability bits demand; any missing or
unrecognized token makes the whole entry fail. -/
def parseEntryLine (st : StatFn) (l : Str) : Option PackageEntry :=
  match lineTokens l with
  | file :: modeStr :: rest =>
    match mode_string_to_mode modeStr with
    | none => none
    | some mode =>
      match rest with
      | [] => none
      | typeTok :: rest1 =>
        match typeFlagOf typeTok with
        | none => none
        | some tbit =>
          let flags0 := tbit
          let step1 : Option (Nat × List Str) :=
            if flags0 &&& FILE_TYPE_HAVE_ARCH ≠ 0 then
              match rest1 with
              | [] => none
              | a :: r =>
                if a = "COMPAT32".data then some (flags0 ||| FILE_CLASS_COMPAT32, r)
                else if a = "NATIVE".data then some (flags0 ||| FILE_CLASS_NATIVE, r)
                else none
            else some (flags0, rest1)
          match step1 with
          | none => none
          | some (flags1, rest2) =>
            let step2 : Option (Nat × List Str) :=
              if flags1 &&& FILE_TYPE_HAVE_CLASS ≠ 0 then
                match rest2 with
                | [] => none
                | a :: r =>
                  if a = "CLASSIC".data then some (flags1 ||| FILE_CLASS_CLASSIC_TLS, r)
                  else if a = "NEW".data then some (flags1 ||| FILE_CLASS_NEW_TLS, r)
                  else none
              else some (flags1, rest2)
            match step2 with
            | none => none
            | some (flags2, rest3) =>
              let step3 : Option (Option Str × List Str) :=
                if flags2 &&& FILE_TYPE_HAVE_PATH ≠ 0 then
                  match rest3 with
                  | [] => none
                  | w :: r => some (some w, r)
                else some (none, rest3)
              match step3 with
              | none => none
              | some (path, rest4) =>
                let step4 : Option (Option Str) :=
                  if flags2 &&& FILE_TYPE_HAVE_TARGET ≠ 0 then
                    match rest4 with
                    | [] => none
                    | w :: _ => some (some w)
                  else some none
                match step4 with
                | none => none
                | some target =>
                  some { file := file
                         name := nameOf file
                         path := path
                         target := target
                         dst := none
                         flags := flags2
                         mode := mode
                         inode := (statOr0 st file).1
                         device := (statOr0 st file).2 }
  | _ => none

/-- The entry loop of `parse_manifest` (install-from-cwd.c lines
653-865): entries are read one per logical line, starting at line 9,
until end of input or a present-but-empty line; a failing entry aborts
with the current line number and no partial result. -/
def parseEntries (st : StatFn) : Nat → List Str → Except ManifestError (List PackageEntry)
  | _, [] => .ok []
  | line, l :: ls =>
    if l = [] then .ok []
    else
      match parseEntryLine st l with
      | none => .error (.invalid line)
      | some e =>
        match parseEntries st (line + 1) ls with
        | .ok es => .ok (e :: es)
        | .error err => .error err

/-- `parse_manifest` (install-from-cwd.c lines 540-888) on the logical
lines of the manifest buffer: the first eight lines are the fixed
header fields (an absent line fails with its 1-based line number), the
fifth and sixth are whitespace-tokenized lists, trailing slashes are
stripped from the two directory lines, and the remainder is the entry
loop.  Opening and mapping the `.manifest` file is environmental and
outside this model. -/
def parse_manifest (st : StatFn) (lines : List Str) : Except ManifestError Package :=
  match lines with
  | [] => .error (.invalid 1)
  | [_] => .error (.invalid 2)
  | [_, _] => .error (.invalid 3)
  | [_, _, _] => .error (.invalid 4)
  | [_, _, _, _] => .error (.invalid 5)
  | [_, _, _, _, _] => .error (.invalid 6)
  | [_, _, _, _, _, _] => .error (.invalid 7)
  | [_, _, _, _, _, _, _] => .error (.invalid 8)
  | l1 :: l2 :: l3 :: l4 :: l5 :: l6 :: l7 :: l8 :: rest =>
    match parseEntries st 9 rest with
    | .error err => .error err
    | .ok es =>
      .ok { description := l1
            version := l2
            kernel_interface_filename := l3
            kernel_module_name := l4
            bad_modules := lineTokens l5
            bad_module_filenames := lineTokens l6
            kernel_module_build_directory := removeTrailingSlashes l7
            precompiled_kernel_interface_directory := removeTrailingSlashes l8
            entries := es }

/-- `add_package_entry` (install-from-cwd.c lines 897-932): appends one
entry built verbatim from the caller's fields, computing inode/device
identically to the parser. -/
def add_package_entry (st : StatFn) (p : Package) (file : Str)
    (path : Option Str) (name : Str) (target : Option Str)
    (dst : Option Str) (flags : Nat) (mode : Nat) : Package :=
  { p with entries := p.entries ++
      [{ file := file
         path := path
         name := name
         target := target
         dst := dst
         flags := flags
         mode := mode
         inode := (statOr0 st file).1
         device := (statOr0 st file).2 }] }

/-- Number of primary type tag bits set in a flags word. -/
def countTagBits (flags : Nat) : Nat :=
  typeBitsList.countP (fun t => flags &&& t != 0)

/-- The per-entry invariant of the spec's data model: exactly one
primary type tag bit, and path/target present exactly when the flags
have the corresponding capability bit. -/
def entryInvariant (e : PackageEntry) : Prop :=
  countTagBits e.flags = 1 ∧
  (e.path.isSome ↔ e.flags &&& FILE_TYPE_HAVE_PATH ≠ 0) ∧
  (e.target.isSome ↔ e.flags &&& FILE_TYPE_HAVE_TARGET ≠ 0)

instance (e : PackageEntry) : Decidable (entryInvariant e) := by
  unfold entryInvariant; infer_instance

/-- A stat oracle for a working directory with no files. -/
def st0 : StatFn := fun _ => none

/-! The install orchestrator.  `install_from_cwd` and
`install_kernel_module` are embedded as functions from a configuration
snapshot (`Options`) and an oracle environment (`Env`, one field per
external collaborator call recording its result) to a result flag, the
ordered trace of collaborator calls made, and the final state of the
options object. -/

/-- One trace event per collaborator call of the orchestrator. -/
inductive Event where
  | parseManifest
  | setTitle
  | checkGpus
  | checkRunningX
  | checkUnloadedKernelModule
  | licensePrompt
  | logInstalling
  | checkExistingDriver
  | preInstallHook
  | continueAnywayPrompt
  | checkNouveau
  | findDkms
  | dkmsPrompt
  | warnNoKernelModule
  | warnDkmsIgnored
  | determineModulePath
  | checkProcModprobe
  | findPrecompiled
  | linkKernelModule
  | checkDevTools
  | checkCcVersion
  | determineKernelSource
  | buildKernelModule
  | testKernelModule
  | addKernelModuleToPackage
  | removeNonKernelModuleFiles
  | getPrefixes
  | shouldInstallOpenglHeaders
  | selectTlsClass
  | processLibglLa
  | processDotDesktop
  | shouldInstallCompat32
  | removeOpenglFiles
  | setDestinations
  | uninstallDriver
  | buildCommandList
  | approvePrompt
  | initBackup
  | doInstall
  | dkmsInstallModule
  | postInstallHook
  | checkInstalledFiles
  | checkSysvipc
  | checkRuntimeConfig
  | message
  | xconfigPrompt
  | runXconfig
  | errorMsg
  | failedInstallHook
  | freePackage
deriving Repr, DecidableEq, Fintype

/-- The configuration fields of `Options` that `install_from_cwd`
reads or writes. -/
structure Options where
  no_kernel_module : Bool
  no_kernel_module_source : Bool
  dkms : Bool
  kernel_module_only : Bool
  no_opengl_files : Bool
  no_nvidia_xconfig_question : Bool
  run_nvidia_xconfig : Bool
  logging : Bool
  distro : Nat
deriving Repr, DecidableEq

/-- Oracle results of the external collaborator calls, one field per
call site of `install_from_cwd` and `install_kernel_module`. -/
structure Env where
  parse_ok : Bool
  running_x_ok : Bool
  unloaded_ok : Bool
  license_accepted : Bool
  existing_ok : Bool
  pre_hook_ok : Bool
  continue_anyway : Bool
  nouveau_ok : Bool
  find_dkms : Bool
  dkms_answer : Bool
  det_module_path_ok : Bool
  proc_modprobe_ok : Bool
  find_precompiled : Bool
  link_ok : Bool
  dev_tools_ok : Bool
  cc_ok : Bool
  kernel_source_ok : Bool
  build_ok : Bool
  test_ok : Bool
  add_pkg_ok : Bool
  prefixes_ok : Bool
  nv_x86_64 : Bool
  set_destinations_ok : Bool
  uninstall_ok : Bool
  build_cmd_ok : Bool
  approve : Bool
  init_backup_ok : Bool
  do_install_ok : Bool
  dkms_install_ok : Bool
  sysvipc_ok : Bool
  runtime_ok : Bool
  xconfig_answer : Bool
  run_xconfig_ok : Bool
deriving Repr, DecidableEq

/-- Tail of `install_kernel_module` shared by the precompiled and the
built-from-source paths (install-from-cwd.c lines 452-463): smoke-test
the module and register it into the package's entry set. -/
def finishModule (tr : List Event) (env : Env) : Bool × List Event :=
  if env.test_ok = false then (false, tr ++ [Event.testKernelModule]) else
  if env.add_pkg_ok = false then
    (false, tr ++ [Event.testKernelModule, Event.addKernelModuleToPackage]) else
  (true, tr ++ [Event.testKernelModule, Event.addKernelModuleToPackage])

/-- `install_kernel_module` (install-from-cwd.c lines 387-464):
determine the installation path, check modprobe configuration, then
either link a found precompiled interface (link failure fatal) or
verify build tools, compiler and kernel sources and build from source;
finally test and register the module.  The unused `op` parameter
mirrors the C signature. -/
def install_kernel_module (op : Options) (env : Env) : Bool × List Event :=
  if env.det_module_path_ok = false then (false, [Event.determineModulePath]) else
  if env.proc_modprobe_ok = false then
    (false, [Event.determineModulePath, Event.checkProcModprobe]) else
  if env.find_precompiled then
    if env.link_ok = false then
      (false, [Event.determineModulePath, Event.checkProcModprobe,
               Event.findPrecompiled, Event.linkKernelModule]) else
    finishModule [Event.determineModulePath, Event.checkProcModprobe,
                  Event.findPrecompiled, Event.linkKernelModule] env
  else
    if env.dev_tools_ok = false then
      (false, [Event.determineModulePath, Event.checkProcModprobe,
               Event.findPrecompiled, Event.checkDevTools]) else
    if env.cc_ok = false then
      (false, [Event.determineModulePath, Event.checkProcModprobe,
               Event.findPrecompiled, Event.checkDevTools, Event.checkCcVersion]) else
    if env.kernel_source_ok = false then
      (false, [Event.determineModulePath, Event.checkProcModprobe,
               Event.findPrecompiled, Event.checkDevTools, Event.checkCcVersion,
               Event.determineKernelSource]) else
    if env.build_ok = false then
      (false, [Event.determineModulePath, Event.checkProcModprobe,
               Event.findPrecompiled, Event.checkDevTools, Event.checkCcVersion,
               Event.determineKernelSource, Event.buildKernelModule]) else
    finishModule [Event.determineModulePath, Event.checkProcModprobe,
                  Event.findPrecompiled, Event.checkDevTools, Event.checkCcVersion,
                  Event.determineKernelSource, Event.buildKernelModule] env

/-- Outcome of a pipeline segment: continue with the events emitted
and the current options, exit via the `exit_install` label (declined),
or exit via the `failed` label (with the `ran_pre_install_hook`
state). -/
inductive PhaseOut where
  | cont (tr : List Event) (op : Options)
  | declined (tr : List Event) (op : Options)
  | failed (tr : List Event) (op : Options) (ranHook : Bool)
deriving Repr, DecidableEq

/-- Events emitted by a pipeline segment. -/
def PhaseOut.events : PhaseOut → List Event
  | .cont tr _ => tr
  | .declined tr _ => tr
  | .failed tr _ _ => tr

/-- Options state at the end of a pipeline segment. -/
def PhaseOut.opts : PhaseOut → Options
  | .cont _ op => op
  | .declined _ op => op
  | .failed _ op _ => op

/-- Stages 1-8 of `install_from_cwd` (install-from-cwd.c lines
95-140): parse the manifest, warn about devices, check for a running X
server and a loaded kernel module, obtain license acceptance (decline
exits via `exit_install`), confirm overwrite of an existing driver
(likewise), run the pre-install hook (on failure ask whether to
continue; declining goes to `failed` before `ran_pre_install_hook` is
set), and check for nouveau. -/
def phaseA (op : Options) (env : Env) : PhaseOut :=
  if env.parse_ok = false then .failed [Event.parseManifest] op false else
  let tr1 := [Event.parseManifest, Event.setTitle, Event.checkGpus, Event.checkRunningX]
  if env.running_x_ok = false then .failed tr1 op false else
  let tr2 := tr1 ++ [Event.checkUnloadedKernelModule]
  if env.unloaded_ok = false then .failed tr2 op false else
  let tr3 := tr2 ++ [Event.licensePrompt]
  if env.license_accepted = false then .declined tr3 op else
  let tr4 := tr3 ++ [Event.logInstalling, Event.checkExistingDriver]
  if env.existing_ok = false then .declined tr4 op else
  let tr5 := tr4 ++ [Event.preInstallHook]
  if env.pre_hook_ok = false then
    let tr6 := tr5 ++ [Event.continueAnywayPrompt]
    if env.continue_anyway = false then .failed tr6 op false else
    let tr7 := tr6 ++ [Event.checkNouveau]
    if env.nouveau_ok = false then .failed tr7 op true else
    .cont tr7 op
  else
    let tr6 := tr5 ++ [Event.checkNouveau]
    if env.nouveau_ok = false then .failed tr6 op true else
    .cont tr6 op

/-- Stage 9 of `install_from_cwd` (install-from-cwd.c lines 144-181):
unless kernel-module installation is disabled, look for dkms and offer
registration (the answer overwrites `op.dkms`); accepting forces
`no_kernel_module` on and skips the module build, otherwise
`install_kernel_module` runs as a hard gate.  When kernel-module
installation is disabled, warn, and force `dkms` off if it was set. -/
def kernelModuleStage (op : Options) (env : Env) : PhaseOut :=
  if op.no_kernel_module = false then
    if env.find_dkms && !op.no_kernel_module_source then
      if env.dkms_answer then
        .cont [Event.findDkms, Event.dkmsPrompt]
          { op with dkms := env.dkms_answer, no_kernel_module := true }
      else
        if (install_kernel_module { op with dkms := env.dkms_answer } env).1 = false then
          .failed ([Event.findDkms, Event.dkmsPrompt] ++
              (install_kernel_module { op with dkms := env.dkms_answer } env).2)
            { op with dkms := env.dkms_answer } true
        else
          .cont ([Event.findDkms, Event.dkmsPrompt] ++
              (install_kernel_module { op with dkms := env.dkms_answer } env).2)
            { op with dkms := env.dkms_answer }
    else
      if op.dkms then .cont [Event.findDkms] { op with no_kernel_module := true }
      else
        if (install_kernel_module op env).1 = false then
          .failed ([Event.findDkms] ++ (install_kernel_module op env).2) op true
        else
          .cont ([Event.findDkms] ++ (install_kernel_module op env).2) op
  else
    if op.dkms then
      .cont [Event.warnNoKernelModule, Event.warnDkmsIgnored] { op with dkms := false }
    else .cont [Event.warnNoKernelModule] op

/-- Stages 11-12 tail shared by both branches of `phaseB2`
(install-from-cwd.c lines 228-237). -/
def phaseB3 (tr : List Event) (op : Options) (env : Env) : PhaseOut :=
  if env.set_destinations_ok = false then
    .failed (tr ++ (if op.no_opengl_files then [Event.removeOpenglFiles] else []) ++
      [Event.setDestinations]) op true
  else
    .cont (tr ++ (if op.no_opengl_files then [Event.removeOpenglFiles] else []) ++
      [Event.setDestinations]) op

/-- Stages 10-12 of `install_from_cwd` (install-from-cwd.c lines
189-237): prune to kernel-module files when kernel-module-only, else
gather prefixes (hard) and run the selection/processing steps (with
the compat32 offer on x86-64 builds); remove OpenGL files if
configured; then compute destinations (hard). -/
def phaseB2 (op : Options) (env : Env) : PhaseOut :=
  if op.kernel_module_only then
    phaseB3 [Event.removeNonKernelModuleFiles] op env
  else
    if env.prefixes_ok = false then .failed [Event.getPrefixes] op true else
    phaseB3 ([Event.getPrefixes] ++
      [Event.shouldInstallOpenglHeaders, Event.selectTlsClass,
       Event.processLibglLa, Event.processDotDesktop] ++
      (if env.nv_x86_64 then [Event.shouldInstallCompat32] else [])) op env

/-- Prefix the events of a later segment with those already
emitted. -/
def prependEvents (l : List Event) : PhaseOut → PhaseOut
  | .cont tr op => .cont (l ++ tr) op
  | .declined tr op => .declined (l ++ tr) op
  | .failed tr op rh => .failed (l ++ tr) op rh

/-- Stages 9-12 of `install_from_cwd` combined. -/
def phaseB (op : Options) (env : Env) : PhaseOut :=
  match kernelModuleStage op env with
  | .failed tr op2 rh => .failed tr op2 rh
  | .declined tr op2 => .declined tr op2
  | .cont tr op2 => prependEvents tr (phaseB2 op2 env)

/-- Stages 13-21 of `install_from_cwd` (install-from-cwd.c lines
249-330): unless kernel-module-only, uninstall the existing driver
(hard); build the command list (hard); obtain approval of the command
list (decline exits via `exit_install`); unless kernel-module-only,
initialize the backup log (hard); execute the command list (hard);
dkms registration if requested (hard); post-install hook and file
check (advisory); sysvipc and runtime-configuration checks (hard);
final messages and the optional xconfig offer.  The event-list helpers
below hold the trace fragments whose presence depends on the
configuration; `phaseC` itself follows. -/
def uninstallEvents (op : Options) : List Event :=
  if op.kernel_module_only then [] else [Event.uninstallDriver]

/-- Backup-log initialization events: the call is made only in
non-kernel-module-only runs (install-from-cwd.c lines 265-267). -/
def initBackupEvents (op : Options) : List Event :=
  if op.kernel_module_only then [] else [Event.initBackup]

/-- Dkms registration events: the call is made only when dkms
registration was requested (install-from-cwd.c line 275). -/
def dkmsEvents (op : Options) : List Event :=
  if op.dkms then [Event.dkmsInstallModule] else []

/-- Final message block (install-from-cwd.c lines 294-330). -/
def finalMessageEvents (op : Options) (env : Env) : List Event :=
  if op.kernel_module_only || op.no_nvidia_xconfig_question then [Event.message]
  else [Event.xconfigPrompt] ++
    (if env.xconfig_answer then [Event.runXconfig] else []) ++ [Event.message]

def phaseC (op : Options) (env : Env) : PhaseOut :=
  if !op.kernel_module_only && !env.uninstall_ok then
    .failed (uninstallEvents op) op true
  else if env.build_cmd_ok = false then
    .failed (uninstallEvents op ++ [Event.buildCommandList]) op true
  else if env.approve = false then
    .declined (uninstallEvents op ++ [Event.buildCommandList] ++ [Event.approvePrompt]) op
  else if !op.kernel_module_only && !env.init_backup_ok then
    .failed (uninstallEvents op ++ [Event.buildCommandList] ++ [Event.approvePrompt] ++
      initBackupEvents op) op true
  else if env.do_install_ok = false then
    .failed (uninstallEvents op ++ [Event.buildCommandList] ++ [Event.approvePrompt] ++
      initBackupEvents op ++ [Event.doInstall]) op true
  else if op.dkms && !env.dkms_install_ok then
    .failed (uninstallEvents op ++ [Event.buildCommandList] ++ [Event.approvePrompt] ++
      initBackupEvents op ++ [Event.doInstall] ++ dkmsEvents op) op true
  else if env.sysvipc_ok = false then
    .failed (uninstallEvents op ++ [Event.buildCommandList] ++ [Event.approvePrompt] ++
      initBackupEvents op ++ [Event.doInstall] ++ dkmsEvents op ++
      [Event.postInstallHook, Event.checkInstalledFiles, Event.checkSysvipc]) op true
  else if env.runtime_ok = false then
    .failed (uninstallEvents op ++ [Event.buildCommandList] ++ [Event.approvePrompt] ++
      initBackupEvents op ++ [Event.doInstall] ++ dkmsEvents op ++
      [Event.postInstallHook, Event.checkInstalledFiles, Event.checkSysvipc] ++
      [Event.checkRuntimeConfig]) op true
  else
    .cont (uninstallEvents op ++ [Event.buildCommandList] ++ [Event.approvePrompt] ++
      initBackupEvents op ++ [Event.doInstall] ++ dkmsEvents op ++
      [Event.postInstallHook, Event.checkInstalledFiles, Event.checkSysvipc] ++
      [Event.checkRuntimeConfig] ++ finalMessageEvents op env) op

/-- Result of `install_from_cwd`: TRUE/FALSE return value, the full
ordered call trace, and the final options state. -/
structure InstallResult where
  ok : Bool
  trace : List Event
  opts : Options
deriving Repr, DecidableEq

/-- Events of the `failed` label (install-from-cwd.c lines 336-368):
the error message, the failed-install hook when the pre-install hook
had run, then fall-through into `exit_install` which frees the
package. -/
def failTail (rh : Bool) : List Event :=
  [Event.errorMsg] ++ (if rh then [Event.failedInstallHook] else []) ++ [Event.freePackage]

/-- `install_from_cwd` (install-from-cwd.c lines 73-372): the three
pipeline segments glued along the shared `failed` and `exit_install`
labels; every exit path frees the package. -/
def install_from_cwd (op : Options) (env : Env) : InstallResult :=
  match phaseA op env with
  | .declined tr op1 => ⟨false, tr ++ [Event.freePackage], op1⟩
  | .failed tr op1 rh => ⟨false, tr ++ failTail rh, op1⟩
  | .cont tr op1 =>
    match phaseB op1 env with
    | .declined tr2 op2 => ⟨false, tr ++ tr2 ++ [Event.freePackage], op2⟩
    | .failed tr2 op2 rh => ⟨false, tr ++ tr2 ++ failTail rh, op2⟩
    | .cont tr2 op2 =>
      match phaseC op2 env with
      | .declined tr3 op3 => ⟨false, tr ++ tr2 ++ tr3 ++ [Event.freePackage], op3⟩
      | .failed tr3 op3 rh => ⟨false, tr ++ tr2 ++ tr3 ++ failTail rh, op3⟩
      | .cont tr3 op3 => ⟨true, tr ++ tr2 ++ tr3 ++ [Event.freePackage], op3⟩

/-- Does every occurrence of `b` in the trace come strictly after an
occurrence of `a`?  Walking the trace: seeing `a` settles it
positively, seeing `b` first settles it negatively. -/
def checkPrecedes (a b : Event) : List Event → Bool
  | [] => true
  | x :: xs => if x = a then true else if x = b then false else checkPrecedes a b xs

/-- The configuration fields never touched by the pipeline: everything
except `dkms` and `no_kernel_module`. -/
def optFrame (op op2 : Options) : Prop :=
  op2.kernel_module_only = op.kernel_module_only ∧
  op2.no_kernel_module_source = op.no_kernel_module_source ∧
  op2.no_opengl_files = op.no_opengl_files ∧
  op2.no_nvidia_xconfig_question = op.no_nvidia_xconfig_question ∧
  op2.run_nvidia_xconfig = op.run_nvidia_xconfig ∧
  op2.logging = op.logging ∧
  op2.distro = op.distro

/-- Events a run of `phaseA` can emit. -/
def phaseAEvents : List Event :=
  [Event.parseManifest, Event.setTitle, Event.checkGpus, Event.checkRunningX,
   Event.checkUnloadedKernelModule, Event.licensePrompt, Event.logInstalling,
   Event.checkExistingDriver, Event.preInstallHook, Event.continueAnywayPrompt,
   Event.checkNouveau]

/-- Events a run of `install_kernel_module` can emit. -/
def moduleEvents : List Event :=
  [Event.determineModulePath, Event.checkProcModprobe, Event.findPrecompiled,
   Event.linkKernelModule, Event.checkDevTools, Event.checkCcVersion,
   Event.determineKernelSource, Event.buildKernelModule, Event.testKernelModule,
   Event.addKernelModuleToPackage]

/-- Events a run of `phaseB` can emit. -/
def phaseBEvents : List Event :=
  moduleEvents ++
  [Event.findDkms, Event.dkmsPrompt, Event.warnNoKernelModule,
   Event.warnDkmsIgnored, Event.removeNonKernelModuleFiles, Event.getPrefixes,
   Event.shouldInstallOpenglHeaders, Event.selectTlsClass, Event.processLibglLa,
   Event.processDotDesktop, Event.shouldInstallCompat32, Event.removeOpenglFiles,
   Event.setDestinations]

/-! Auxiliary definitions used to state and witness the claims. -/

/-- An entry line whose file and mode tokens are valid but whose
file-type token is not in the recognized set. -/
def badTypeLine (l : Str) : Bool :=
  match lineTokens l with
  | _ :: w2 :: w3 :: _ => (mode_string_to_mode w2).isSome && (typeFlagOf w3).isNone
  | _ => false

/-- A nonempty line that parses as a file entry. -/
def goodEntryLine (st : StatFn) (l : Str) : Bool :=
  !l.isEmpty && (parseEntryLine st l).isSome

/-- The empty package value. -/
def pkg0 : Package := ⟨[], [], [], [], [], [], [], [], []⟩

/-- A default entry used as the fallback of list lookups. -/
def dfltEntry : PackageEntry := ⟨[], [], none, none, none, 0, 0, 0, 0⟩

/-- A manifest whose first header line is present but empty and that
is otherwise well formed. -/
def c3cexLines : List Str := [[], ['v'], ['k'], ['m'], [], [], ['b'], ['p']]

def c3cexPkg : Package := (parse_manifest st0 c3cexLines).toOption.getD pkg0

/-- A well-formed manifest exercising word lists and trailing slashes. -/
def c4Lines : List Str :=
  ["desc one".data, "1.0-42".data, "nv.o".data, "nvidia".data, "old1 old2".data,
   "old1.o".data, "usr/src/nv//".data, "precomp/".data, "a 0755 INSTALLER_BINARY".data]

def c4Pkg : Package := (parse_manifest st0 c4Lines).toOption.getD pkg0

def c5Pre : List Str := ["good 0755 INSTALLER_BINARY".data]

def c5Bad : Str := "bad 0644 BOGUS_TYPE".data

def c5Post : List Str := ["after 0 DOCUMENTATION doc".data]

/-- A well-formed manifest with one entry carrying qualifiers and a
path. -/
def c6Lines : List Str :=
  [['d'], ['v'], ['k'], ['m'], [], [], ['b'], ['p'],
   "x.so 0644 OPENGL_LIB NATIVE /usr/lib".data]

def c6Pkg : Package := (parse_manifest st0 c6Lines).toOption.getD pkg0

def c6AddPkg : Package :=
  add_package_entry st0 pkg0 "nv.ko".data none "nv.ko".data none none
    FILE_TYPE_KERNEL_MODULE_SRC 420

/-- `add_package_entry` called with a flags word that demands a path
but with no path supplied. -/
def c6CexPkg : Package :=
  add_package_entry st0 pkg0 "libGL.so".data none "libGL.so".data none none
    FILE_TYPE_OPENGL_LIB 493

/-- A well-formed manifest whose entry file has a directory part. -/
def c7Lines : List Str :=
  [['d'], ['v'], ['k'], ['m'], [], [], ['b'], ['p'],
   "a/b 0755 INSTALLER_BINARY".data]

def c7Pkg : Package := (parse_manifest st0 c7Lines).toOption.getD pkg0

def c7E : PackageEntry := c7Pkg.entries.getD 0 dfltEntry

/-- Default configuration: no restricting flags set. -/
def opT : Options := ⟨false, false, false, false, false, false, false, false, 0⟩

/-- Environment where every collaborator call succeeds or answers
yes. -/
def envT : Env :=
  ⟨true, true, true, true, true, true, true, true, true, true, true,
   true, true, true, true, true, true, true, true, true, true, true,
   true, true, true, true, true, true, true, true, true, true, true⟩

def env10 : Env := { envT with approve := false }

def env2a : Env := { envT with license_accepted := false }

def env2b : Env := { envT with existing_ok := false }

def env8a : Env := { envT with find_precompiled := false, dev_tools_ok := false }

def env8b : Env := { envT with link_ok := false }

/-! Helper lemmas about the parser. -/

theorem lineTokens_nil : lineTokens [] = [] := by decide

theorem typeTokenTable_snd : ∀ pr ∈ typeTokenTable, pr.2 ∈ typeBitsList := by decide

theorem typeFlagOf_mem {w : Str} {t : Nat} (h : typeFlagOf w = some t) :
    t ∈ typeBitsList := by
  unfold typeFlagOf at h
  rcases Option.map_eq_some'.mp h with ⟨pr, hfind, rfl⟩
  exact typeTokenTable_snd pr (List.mem_of_find?_eq_some hfind)

theorem tagBits_combo : ∀ t ∈ typeBitsList,
    ∀ a ∈ [0, FILE_CLASS_COMPAT32, FILE_CLASS_NATIVE],
    ∀ c ∈ [0, FILE_CLASS_CLASSIC_TLS, FILE_CLASS_NEW_TLS],
    countTagBits (t ||| a ||| c) = 1 := by decide

theorem parseEntryLine_props {st : StatFn} {l : Str} {e : PackageEntry}
    (h : parseEntryLine st l = some e) : entryInvariant e ∧ e.name = nameOf e.file := by
  unfold parseEntryLine at h
  split at h
  case _ file modeStr rest =>
    split at h
    case _ => exact absurd h (by simp)
    case _ mode hmode =>
      split at h
      case _ => exact absurd h (by simp)
      case _ typeTok rest1 =>
        split at h
        case _ => exact absurd h (by simp)
        case _ tbit htype =>
          have htb := typeFlagOf_mem htype
          simp only at h
          split at h
          case _ => exact absurd h (by simp)
          case _ flags1 rest2 hstep1 =>
            split at h
            case _ => exact absurd h (by simp)
            case _ flags2 rest3 hstep2 =>
              have h1 : ∃ a ∈ [0, FILE_CLASS_COMPAT32, FILE_CLASS_NATIVE],
                  flags1 = tbit ||| a := by
                split at hstep1
                · split at hstep1
                  · exact absurd hstep1 (by simp)
                  · split_ifs at hstep1 <;> injection hstep1 with h2 <;>
                      [skip; skip] <;> injection h2 with h3 h4
                    · exact ⟨FILE_CLASS_COMPAT32, by decide, h3.symm⟩
                    · exact ⟨FILE_CLASS_NATIVE, by decide, h3.symm⟩
                · injection hstep1 with h2
                  injection h2 with h3 h4
                  exact ⟨0, by decide, by simp [← h3]⟩
              have h2 : ∃ c ∈ [0, FILE_CLASS_CLASSIC_TLS, FILE_CLASS_NEW_TLS],
                  flags2 = flags1 ||| c := by
                split at hstep2
                · split at hstep2
                  · exact absurd hstep2 (by simp)
                  · split_ifs at hstep2 <;> injection hstep2 with h2 <;>
                      [skip; skip] <;> injection h2 with h3 h4
                    · exact ⟨FILE_CLASS_CLASSIC_TLS, by decide, h3.symm⟩
                    · exact ⟨FILE_CLASS_NEW_TLS, by decide, h3.symm⟩
                · injection hstep2 with h2
                  injection h2 with h3 h4
                  exact ⟨0, by decide, by simp [← h3]⟩
              obtain ⟨a, ha, rfl⟩ := h1
              obtain ⟨c, hc, rfl⟩ := h2
              split at h
              case _ => exact absurd h (by simp)
              case _ path rest4 hstep3 =>
                split at h
                case _ => exact absurd h (by simp)
                case _ target hstep4 =>
                  injection h with h5
                  subst h5
                  refine ⟨⟨tagBits_combo tbit htb a ha c hc, ?_, ?_⟩, rfl⟩
                  · simp only
                    split at hstep3
                    case _ hP =>
                      split at hstep3
                      · exact absurd hstep3 (by simp)
                      · injection hstep3 with h5
                        injection h5 with h6 h7
                        simp [← h6, hP]
                    case _ hP =>
                      injection hstep3 with h5
                      injection h5 with h6 h7
                      simp [← h6, hP]
                  · simp only
                    split at hstep4
                    case _ hT =>
                      split at hstep4
                      · exact absurd hstep4 (by simp)
                      · injection hstep4 with h5
                        simp [← h5, hT]
                    case _ hT =>
                      injection hstep4 with h5
                      simp [← h5, hT]
  case _ => exact absurd h (by simp)

theorem parseEntries_mem {st : StatFn} :
    ∀ {k : Nat} {ls : List Str} {es : List PackageEntry},
      parseEntries st k ls = .ok es → ∀ e ∈ es, ∃ l, parseEntryLine st l = some e := by
  intro k ls
  induction ls generalizing k with
  | nil => intro es h e he; rw [parseEntries] at h; cases h; simp at he
  | cons l ls ih =>
    intro es h e he
    rw [parseEntries] at h
    split at h
    · cases h; simp at he
    · split at h
      · exact absurd h (by simp)
      · split at h
        · cases h
          rcases List.mem_cons.mp he with rfl | he2
          · exact ⟨l, by assumption⟩
          · exact ih (by assumption) e he2
        · exact absurd h (by simp)

theorem parse_manifest_entries {st : StatFn} {lines : List Str} {p : Package}
    (h : parse_manifest st lines = .ok p) :
    ∀ e ∈ p.entries, ∃ l, parseEntryLine st l = some e := by
  unfold parse_manifest at h
  split at h <;> try exact absurd h (by simp)
  split at h
  · exact absurd h (by simp)
  · cases h
    exact parseEntries_mem (by assumption)

theorem nameOf_isSuffix (f : Str) : (nameOf f).IsSuffix f := by
  refine ⟨(f.reverse.dropWhile (fun c => c ≠ '/')).reverse, ?_⟩
  rw [nameOf, ← List.reverse_append, List.takeWhile_append_dropWhile, List.reverse_reverse]

theorem nameOf_no_slash (f : Str) : '/' ∉ nameOf f := by
  intro hm
  rw [nameOf, List.mem_reverse] at hm
  have := List.mem_takeWhile_imp hm
  simp at this

theorem nameOf_eq_self {f : Str} (h : '/' ∉ f) : nameOf f = f := by
  rw [nameOf, List.takeWhile_eq_self_iff.mpr, List.reverse_reverse]
  intro x hx
  simp only [decide_eq_true_eq]
  rintro rfl
  exact h (List.mem_reverse.mp hx)

theorem badTypeLine_ne_nil {l : Str} (h : badTypeLine l = true) : l ≠ [] := by
  rintro rfl
  rw [badTypeLine, lineTokens_nil] at h
  simp at h

theorem badType_entry_none (st : StatFn) {l : Str} (h : badTypeLine l = true) :
    parseEntryLine st l = none := by
  rw [badTypeLine] at h
  split at h
  case _ w1 w2 w3 rest heq =>
    rw [Bool.and_eq_true] at h
    obtain ⟨m, hm⟩ := Option.isSome_iff_exists.mp h.1
    have htf : typeFlagOf w3 = none := Option.not_isSome_iff_eq_none.mp (by simp [h.2])
    simp only [parseEntryLine, heq, hm, htf]
  case _ => simp at h

theorem parseEntries_bad {st : StatFn} {l : Str} :
    ∀ (pre : List Str), (∀ l2 ∈ pre, goodEntryLine st l2 = true) →
      badTypeLine l = true → ∀ (k : Nat) (post : List Str),
      parseEntries st k (pre ++ l :: post) = .error (.invalid (k + pre.length)) := by
  intro pre
  induction pre with
  | nil =>
    intro _ hb k post
    rw [List.nil_append, parseEntries, if_neg (by simpa using badTypeLine_ne_nil hb),
        badType_entry_none st hb]
    simp
  | cons l2 pre ih =>
    intro hg hb k post
    have hg2 := hg l2 (by simp)
    rw [goodEntryLine, Bool.and_eq_true] at hg2
    obtain ⟨e, he⟩ := Option.isSome_iff_exists.mp hg2.2
    have hne : ¬(l2 = []) := by simpa using hg2.1
    have hih := ih (fun x hx => hg x (by simp [hx])) hb (k + 1) post
    simp only [List.cons_append, parseEntries, if_neg hne, List.append_eq, he, hih,
      List.length_cons]
    congr 2
    omega

/-! Helper lemmas about the orchestrator. -/

theorem install_kernel_module_events_subset :
    ∀ (op : Options) (env : Env), ∀ e ∈ (install_kernel_module op env).2, e ∈ moduleEvents := by
  intro op env
  unfold install_kernel_module finishModule
  split_ifs <;> decide

theorem moduleEvents_sub : ∀ e ∈ moduleEvents, e ∈ phaseBEvents := by decide

theorem phaseA_events_subset :
    ∀ (op : Options) (env : Env), ∀ e ∈ (phaseA op env).events, e ∈ phaseAEvents := by
  intro op env
  unfold phaseA
  split_ifs <;> simp only [PhaseOut.events] <;> decide

theorem phaseA_opts : ∀ (op : Options) (env : Env), (phaseA op env).opts = op := by
  intro op env
  unfold phaseA
  split_ifs <;> rfl

theorem phaseA_cont_preHook : ∀ (op : Options) (env : Env) (tr : List Event) (op1 : Options),
    phaseA op env = .cont tr op1 → Event.preInstallHook ∈ tr := by
  intro op env tr op1
  unfold phaseA
  split_ifs <;> intro h <;> first
    | exact PhaseOut.noConfusion h
    | (cases h <;> decide)

theorem kernelModuleStage_events_subset :
    ∀ (op : Options) (env : Env), ∀ e ∈ (kernelModuleStage op env).events, e ∈ phaseBEvents := by
  intro op env e he
  unfold kernelModuleStage at he
  simp only [apply_ite PhaseOut.events] at he
  split_ifs at he <;> simp only [PhaseOut.events] at he <;>
    first
      | (revert he; revert e; decide)
      | (rcases List.mem_append.mp he with h | h
         · clear he; revert h; revert e; decide
         · exact moduleEvents_sub _ (install_kernel_module_events_subset _ _ _ h))

theorem phaseB3_events_subset :
    ∀ (tr : List Event) (op : Options) (env : Env),
      (∀ e ∈ tr, e ∈ phaseBEvents) → ∀ e ∈ (phaseB3 tr op env).events, e ∈ phaseBEvents := by
  intro tr op env htr e he
  unfold phaseB3 at he
  simp only [apply_ite PhaseOut.events] at he
  split_ifs at he <;> simp only [PhaseOut.events] at he <;>
    (rcases List.mem_append.mp he with h | h
     · rcases List.mem_append.mp h with h2 | h2
       · exact htr _ h2
       · clear he h; revert h2; revert e; decide
     · clear he; revert h; revert e; decide)

theorem phaseB2_events_subset :
    ∀ (op : Options) (env : Env), ∀ e ∈ (phaseB2 op env).events, e ∈ phaseBEvents := by
  intro op env e he
  unfold phaseB2 at he
  split_ifs at he with h1 h2 h3
  · exact phaseB3_events_subset _ op env (by decide) e he
  · simp only [PhaseOut.events] at he; revert he; revert e; decide
  · exact phaseB3_events_subset _ op env (by decide) e he
  · exact phaseB3_events_subset _ op env (by decide) e he

theorem phaseB_events_subset :
    ∀ (op : Options) (env : Env), ∀ e ∈ (phaseB op env).events, e ∈ phaseBEvents := by
  intro op env e he
  unfold phaseB at he
  cases hks : kernelModuleStage op env with
  | failed tr op2 rh =>
    rw [hks] at he
    exact kernelModuleStage_events_subset op env e (by rw [hks]; exact he)
  | declined tr op2 =>
    rw [hks] at he
    exact kernelModuleStage_events_subset op env e (by rw [hks]; exact he)
  | cont tr op2 =>
    rw [hks] at he
    simp only [prependEvents] at he
    cases hb2 : phaseB2 op2 env with
    | cont tr2 op3 =>
      rw [hb2] at he
      simp only [PhaseOut.events] at he
      rcases List.mem_append.mp he with h | h
      · exact kernelModuleStage_events_subset op env e (by rw [hks]; exact h)
      · exact phaseB2_events_subset op2 env e (by rw [hb2]; exact h)
    | declined tr2 op3 =>
      rw [hb2] at he
      simp only [PhaseOut.events] at he
      rcases List.mem_append.mp he with h | h
      · exact kernelModuleStage_events_subset op env e (by rw [hks]; exact h)
      · exact phaseB2_events_subset op2 env e (by rw [hb2]; exact h)
    | failed tr2 op3 rh =>
      rw [hb2] at he
      simp only [PhaseOut.events] at he
      rcases List.mem_append.mp he with h | h
      · exact kernelModuleStage_events_subset op env e (by rw [hks]; exact h)
      · exact phaseB2_events_subset op2 env e (by rw [hb2]; exact h)

theorem prependEvents_opts (l : List Event) (P : PhaseOut) :
    (prependEvents l P).opts = P.opts := by
  cases P <;> rfl

theorem kernelModuleStage_opts_frame_eq :
    ∀ (op : Options) (env : Env) (out : PhaseOut), kernelModuleStage op env = out →
      optFrame op out.opts := by
  intro op env out h
  unfold kernelModuleStage at h
  split_ifs at h <;> (cases h; exact ⟨rfl, rfl, rfl, rfl, rfl, rfl, rfl⟩)

theorem phaseB3_opts (tr : List Event) (op : Options) (env : Env) :
    (phaseB3 tr op env).opts = op := by
  unfold phaseB3
  split_ifs <;> rfl

theorem phaseB2_opts (op : Options) (env : Env) : (phaseB2 op env).opts = op := by
  unfold phaseB2
  split_ifs <;> first | rfl | exact phaseB3_opts _ op env

theorem phaseB_opts_frame :
    ∀ (op : Options) (env : Env), optFrame op ((phaseB op env).opts) := by
  intro op env
  unfold phaseB
  cases hks : kernelModuleStage op env with
  | failed tr op2 rh =>
    have := kernelModuleStage_opts_frame_eq op env _ hks
    exact this
  | declined tr op2 =>
    have := kernelModuleStage_opts_frame_eq op env _ hks
    exact this
  | cont tr op2 =>
    have hf := kernelModuleStage_opts_frame_eq op env _ hks
    simp only [PhaseOut.opts] at hf
    rw [prependEvents_opts, phaseB2_opts]
    exact hf

theorem phaseC_opts_eq : ∀ (op : Options) (env : Env) (out : PhaseOut),
    phaseC op env = out → out.opts = op := by
  intro op env out h
  unfold phaseC at h
  split_ifs at h <;> (cases h; rfl)

theorem checkPrecedes_append {a b : Event} :
    ∀ (l r : List Event), a ∉ l → b ∉ l →
      checkPrecedes a b (l ++ r) = checkPrecedes a b r := by
  intro l r
  induction l with
  | nil => intro _ _; rfl
  | cons x xs ih =>
    intro ha hb
    rw [List.cons_append, checkPrecedes,
        if_neg (fun hxa => ha (by simp [hxa])),
        if_neg (fun hxb => hb (by simp [hxb]))]
    exact ih (fun h => ha (List.mem_cons_of_mem x h))
      (fun h => hb (List.mem_cons_of_mem x h))

theorem checkPrecedes_found {a b : Event} :
    ∀ (l r : List Event), b ∉ l → checkPrecedes a b (l ++ a :: r) = true := by
  intro l r
  induction l with
  | nil => intro _; simp [checkPrecedes]
  | cons x xs ih =>
    intro hb
    rw [List.cons_append, checkPrecedes]
    by_cases hxa : x = a
    · rw [if_pos hxa]
    · rw [if_neg hxa, if_neg (fun hxb => hb (by simp [hxb]))]
      exact ih (fun h => hb (List.mem_cons_of_mem x h))

theorem failTail_mem : ∀ (rh : Bool), ∀ e ∈ failTail rh,
    e ∈ [Event.errorMsg, Event.failedInstallHook, Event.freePackage] := by
  intro rh
  cases rh <;> decide

theorem uninstallEvents_mem : ∀ (op : Options), ∀ e ∈ uninstallEvents op,
    e ∈ [Event.uninstallDriver] := by
  intro op e he
  unfold uninstallEvents at he
  split_ifs at he
  · simp at he
  · exact he

theorem phaseC_doInstall : ∀ (op : Options) (env : Env) (out : PhaseOut),
    phaseC op env = out →
    op.kernel_module_only = false →
    Event.doInstall ∈ out.events →
    env.init_backup_ok = true ∧
    ∃ l2, out.events =
      [Event.uninstallDriver, Event.buildCommandList, Event.approvePrompt] ++
        Event.initBackup :: l2 := by
  intro op env out h hkmo hd
  unfold phaseC at h
  simp only [uninstallEvents, initBackupEvents, dkmsEvents, finalMessageEvents, hkmo,
    Bool.not_false, Bool.true_and, Bool.false_or, Bool.false_eq_true, if_false] at h
  split_ifs at h <;> (cases h; simp only [PhaseOut.events] at hd ⊢) <;>
    first
      | exact absurd hd (by decide)
      | exact ⟨by simp_all, _, rfl⟩

theorem phaseC_decline : ∀ (op : Options) (env : Env) (out : PhaseOut),
    phaseC op env = out →
    env.approve = false →
    Event.approvePrompt ∈ out.events →
    out = .declined
      (uninstallEvents op ++ [Event.buildCommandList] ++ [Event.approvePrompt]) op := by
  intro op env out h happ hm
  unfold phaseC at h
  split_ifs at h <;> (cases h; simp only [PhaseOut.events] at hm) <;>
    first
      | rfl
      | exact absurd happ (by assumption)
      | (exfalso; exact absurd (uninstallEvents_mem op _ hm) (by decide))
      | (exfalso
         rcases List.mem_append.mp hm with h | h
         · exact absurd (uninstallEvents_mem op _ h) (by decide)
         · exact absurd h (by decide))

/-! The claims. -/

/-- Claim C1: in every run of the install orchestrator that is not
kernel-module-only and whose trace reaches command-list execution
(`do_install`), backup-log initialization (`init_backup`) completed
successfully strictly before command-list execution began. -/
theorem c1_backup_before_install :
    ∀ (op : Options) (env : Env),
      op.kernel_module_only = false →
      Event.doInstall ∈ (install_from_cwd op env).trace →
      env.init_backup_ok = true ∧
      checkPrecedes Event.initBackup Event.doInstall (install_from_cwd op env).trace = true := by
  intro op env hkmo hd
  unfold install_from_cwd at hd ⊢
  cases hA : phaseA op env with
  | declined tr op1 =>
    simp only [hA] at hd
    exfalso
    rcases List.mem_append.mp hd with h | h
    · exact absurd (phaseA_events_subset op env _ (by rw [hA]; exact h)) (by decide)
    · exact absurd h (by decide)
  | failed tr op1 rh =>
    simp only [hA] at hd
    exfalso
    rcases List.mem_append.mp hd with h | h
    · exact absurd (phaseA_events_subset op env _ (by rw [hA]; exact h)) (by decide)
    · exact absurd (failTail_mem rh _ h) (by decide)
  | cont tr op1 =>
    simp only [hA] at hd ⊢
    have hop1 : op1 = op := by
      have h0 := phaseA_opts op env
      rw [hA] at h0
      exact h0
    cases hB : phaseB op1 env with
    | declined tr2 op2 =>
      simp only [hB] at hd
      exfalso
      rcases List.mem_append.mp hd with h | h
      · rcases List.mem_append.mp h with h2 | h2
        · exact absurd (phaseA_events_subset op env _ (by rw [hA]; exact h2)) (by decide)
        · exact absurd (phaseB_events_subset op1 env _ (by rw [hB]; exact h2)) (by decide)
      · exact absurd h (by decide)
    | failed tr2 op2 rh =>
      simp only [hB] at hd
      exfalso
      rcases List.mem_append.mp hd with h | h
      · rcases List.mem_append.mp h with h2 | h2
        · exact absurd (phaseA_events_subset op env _ (by rw [hA]; exact h2)) (by decide)
        · exact absurd (phaseB_events_subset op1 env _ (by rw [hB]; exact h2)) (by decide)
      · exact absurd (failTail_mem rh _ h) (by decide)
    | cont tr2 op2 =>
      simp only [hB] at hd ⊢
      have hkmo2 : op2.kernel_module_only = false := by
        have hf := phaseB_opts_frame op1 env
        rw [hB] at hf
        simp only [PhaseOut.opts] at hf
        rw [hf.1, hop1, hkmo]
      have hnotA : ∀ (x : Event), x ∈ tr →
          x = Event.initBackup ∨ x = Event.doInstall → False := by
        intro x hx hor
        have := phaseA_events_subset op env x (by rw [hA]; exact hx)
        rcases hor with rfl | rfl <;> revert this <;> decide
      have hnotB : ∀ (x : Event), x ∈ tr2 →
          x = Event.initBackup ∨ x = Event.doInstall → False := by
        intro x hx hor
        have := phaseB_events_subset op1 env x (by rw [hB]; exact hx)
        rcases hor with rfl | rfl <;> revert this <;> decide
      cases hC : phaseC op2 env with
      | cont tr3 op3 =>
        simp only [hC] at hd ⊢
        have hd3 : Event.doInstall ∈ tr3 := by
          rcases List.mem_append.mp hd with h | h
          · rcases List.mem_append.mp h with h2 | h2
            · rcases List.mem_append.mp h2 with h3 | h3
              · exact absurd (Or.inr rfl) (fun hor => False.elim (hnotA _ h3 hor))
              · exact absurd (Or.inr rfl) (fun hor => False.elim (hnotB _ h3 hor))
            · exact h2
          · exact absurd h (by decide)
        obtain ⟨hinit, l2, hsplit⟩ := phaseC_doInstall op2 env _ hC hkmo2 hd3
        simp only [PhaseOut.events] at hsplit
        refine ⟨hinit, ?_⟩
        rw [hsplit]
        have heq : tr ++ tr2 ++
            ([Event.uninstallDriver, Event.buildCommandList, Event.approvePrompt] ++
              Event.initBackup :: l2) ++ [Event.freePackage] =
            (tr ++ (tr2 ++ [Event.uninstallDriver, Event.buildCommandList,
              Event.approvePrompt])) ++ Event.initBackup :: (l2 ++ [Event.freePackage]) := by
          simp [List.append_assoc]
        rw [heq]
        refine checkPrecedes_found _ _ ?_
        intro hmem
        rcases List.mem_append.mp hmem with h | h
        · exact hnotA _ h (Or.inr rfl)
        · rcases List.mem_append.mp h with h2 | h2
          · exact hnotB _ h2 (Or.inr rfl)
          · exact absurd h2 (by decide)
      | declined tr3 op3 =>
        simp only [hC] at hd ⊢
        have hd3 : Event.doInstall ∈ tr3 := by
          rcases List.mem_append.mp hd with h | h
          · rcases List.mem_append.mp h with h2 | h2
            · rcases List.mem_append.mp h2 with h3 | h3
              · exact absurd (Or.inr rfl) (fun hor => False.elim (hnotA _ h3 hor))
              · exact absurd (Or.inr rfl) (fun hor => False.elim (hnotB _ h3 hor))
            · exact h2
          · exact absurd h (by decide)
        obtain ⟨hinit, l2, hsplit⟩ := phaseC_doInstall op2 env _ hC hkmo2 hd3
        simp only [PhaseOut.events] at hsplit
        refine ⟨hinit, ?_⟩
        rw [hsplit]
        have heq : tr ++ tr2 ++
            ([Event.uninstallDriver, Event.buildCommandList, Event.approvePrompt] ++
              Event.initBackup :: l2) ++ [Event.freePackage] =
            (tr ++ (tr2 ++ [Event.uninstallDriver, Event.buildCommandList,
              Event.approvePrompt])) ++ Event.initBackup :: (l2 ++ [Event.freePackage]) := by
          simp [List.append_assoc]
        rw [heq]
        refine checkPrecedes_found _ _ ?_
        intro hmem
        rcases List.mem_append.mp hmem with h | h
        · exact hnotA _ h (Or.inr rfl)
        · rcases List.mem_append.mp h with h2 | h2
          · exact hnotB _ h2 (Or.inr rfl)
          · exact absurd h2 (by decide)
      | failed tr3 op3 rh =>
        simp only [hC] at hd ⊢
        have hd3 : Event.doInstall ∈ tr3 := by
          rcases List.mem_append.mp hd with h | h
          · rcases List.mem_append.mp h with h2 | h2
            · rcases List.mem_append.mp h2 with h3 | h3
              · exact absurd (Or.inr rfl) (fun hor => False.elim (hnotA _ h3 hor))
              · exact absurd (Or.inr rfl) (fun hor => False.elim (hnotB _ h3 hor))
            · exact h2
          · exact absurd (failTail_mem rh _ h) (by decide)
        obtain ⟨hinit, l2, hsplit⟩ := phaseC_doInstall op2 env _ hC hkmo2 hd3
        simp only [PhaseOut.events] at hsplit
        refine ⟨hinit, ?_⟩
        rw [hsplit]
        have heq : tr ++ tr2 ++
            ([Event.uninstallDriver, Event.buildCommandList, Event.approvePrompt] ++
              Event.initBackup :: l2) ++ failTail rh =
            (tr ++ (tr2 ++ [Event.uninstallDriver, Event.buildCommandList,
              Event.approvePrompt])) ++ Event.initBackup :: (l2 ++ failTail rh) := by
          simp [List.append_assoc]
        rw [heq]
        refine checkPrecedes_found _ _ ?_
        intro hmem
        rcases List.mem_append.mp hmem with h | h
        · exact hnotA _ h (Or.inr rfl)
        · rcases List.mem_append.mp h with h2 | h2
          · exact hnotB _ h2 (Or.inr rfl)
          · exact absurd h2 (by decide)

/-- Witness for C1 at a concrete successful run. -/
theorem c1_witness :
    opT.kernel_module_only = false ∧
    Event.doInstall ∈ (install_from_cwd opT envT).trace ∧
    (envT.init_backup_ok = true ∧
      checkPrecedes Event.initBackup Event.doInstall (install_from_cwd opT envT).trace = true) :=
  ⟨rfl, by decide, c1_backup_before_install opT envT rfl (by decide)⟩

/-- Claim C2: declining the license prompt (stage 5) — and likewise a
decline at the existing-driver confirmation (stage 6) — makes
`install_from_cwd` return failure and release the Package, with no
error message and no failed-install hook, in every such run. -/
theorem c2_soft_decline :
    ∀ (op : Options) (env : Env),
      env.parse_ok = true → env.running_x_ok = true → env.unloaded_ok = true →
      (env.license_accepted = false →
        (install_from_cwd op env).ok = false ∧
        Event.errorMsg ∉ (install_from_cwd op env).trace ∧
        Event.failedInstallHook ∉ (install_from_cwd op env).trace ∧
        Event.freePackage ∈ (install_from_cwd op env).trace) ∧
      (env.license_accepted = true → env.existing_ok = false →
        (install_from_cwd op env).ok = false ∧
        Event.errorMsg ∉ (install_from_cwd op env).trace ∧
        Event.failedInstallHook ∉ (install_from_cwd op env).trace ∧
        Event.freePackage ∈ (install_from_cwd op env).trace) := by
  intro op env h1 h2 h3
  constructor
  · intro hlic
    have hA : phaseA op env = .declined
        [Event.parseManifest, Event.setTitle, Event.checkGpus, Event.checkRunningX,
         Event.checkUnloadedKernelModule, Event.licensePrompt] op := by
      unfold phaseA
      simp [h1, h2, h3, hlic]
    unfold install_from_cwd
    simp only [hA]
    refine ⟨by trivial, by decide, by decide, by decide⟩
  · intro hlic hex
    have hA : phaseA op env = .declined
        [Event.parseManifest, Event.setTitle, Event.checkGpus, Event.checkRunningX,
         Event.checkUnloadedKernelModule, Event.licensePrompt, Event.logInstalling,
         Event.checkExistingDriver] op := by
      unfold phaseA
      simp [h1, h2, h3, hlic, hex]
    unfold install_from_cwd
    simp only [hA]
    refine ⟨by trivial, by decide, by decide, by decide⟩

/-- Witness for C2 at concrete declining runs. -/
theorem c2_witness :
    ((install_from_cwd opT env2a).ok = false ∧
      Event.errorMsg ∉ (install_from_cwd opT env2a).trace ∧
      Event.failedInstallHook ∉ (install_from_cwd opT env2a).trace ∧
      Event.freePackage ∈ (install_from_cwd opT env2a).trace) ∧
    ((install_from_cwd opT env2b).ok = false ∧
      Event.errorMsg ∉ (install_from_cwd opT env2b).trace ∧
      Event.failedInstallHook ∉ (install_from_cwd opT env2b).trace ∧
      Event.freePackage ∈ (install_from_cwd opT env2b).trace) :=
  ⟨(c2_soft_decline opT env2a rfl rfl rfl).1 rfl,
   (c2_soft_decline opT env2b rfl rfl rfl).2 rfl rfl⟩

/-- Claim C3, counterexample: a manifest whose first header line is
present but empty parses successfully, so parsing does not fail for an
empty (as opposed to absent) header line. -/
theorem c3_counterexample :
    parse_manifest st0 c3cexLines = .ok c3cexPkg ∧ c3cexLines.getD 0 ['x'] = [] :=
  ⟨rfl, rfl⟩

/-- Claim C3 as amended: parsing fails with the 1-based line number of
the first absent header line whenever the buffer holds fewer than
eight lines; in particular a manifest truncated immediately after the
fifth header line fails with line 6.  (An empty-but-present header
line is accepted: the header checks only fail when `get_next_line`
returns nothing.) -/
theorem c3_missing_header_line : ∀ (st : StatFn) (lines : List Str), lines.length < 8 →
    parse_manifest st lines = .error (.invalid (lines.length + 1)) := by
  intro st lines h
  rcases lines with _ | ⟨a1, _ | ⟨a2, _ | ⟨a3, _ | ⟨a4, _ | ⟨a5, _ | ⟨a6, _ | ⟨a7, _ | ⟨a8, rest⟩⟩⟩⟩⟩⟩⟩⟩ <;>
    first
      | rfl
      | omega
      | (simp at h; omega)

/-- Witness for C3: truncation immediately after the fifth header line
is reported as line 6. -/
theorem c3_witness :
    parse_manifest st0 [['d'], ['v'], ['k'], ['m'], "m1 m2".data] = .error (.invalid 6) :=
  c3_missing_header_line st0 _ (by decide)

/-- Claim C4: a successfully parsed Package's eight header fields are
the eight header lines verbatim — the two word lists tokenized, and
trailing slashes stripped from the two directory fields. -/
theorem c4_header_fields : ∀ (st : StatFn) (l1 l2 l3 l4 l5 l6 l7 l8 : Str)
    (rest : List Str) (p : Package),
    parse_manifest st (l1 :: l2 :: l3 :: l4 :: l5 :: l6 :: l7 :: l8 :: rest) = .ok p →
    p.description = l1 ∧ p.version = l2 ∧ p.kernel_interface_filename = l3 ∧
    p.kernel_module_name = l4 ∧ p.bad_modules = lineTokens l5 ∧
    p.bad_module_filenames = lineTokens l6 ∧
    p.kernel_module_build_directory = removeTrailingSlashes l7 ∧
    p.precompiled_kernel_interface_directory = removeTrailingSlashes l8 := by
  intro st l1 l2 l3 l4 l5 l6 l7 l8 rest p h
  rw [parse_manifest] at h
  split at h
  · exact absurd h (by simp)
  · injection h with h
    subst h
    exact ⟨rfl, rfl, rfl, rfl, rfl, rfl, rfl, rfl⟩

/-- Witness for C4 at a concrete manifest. -/
theorem c4_witness :
    c4Pkg.description = "desc one".data ∧ c4Pkg.version = "1.0-42".data ∧
    c4Pkg.kernel_interface_filename = "nv.o".data ∧
    c4Pkg.kernel_module_name = "nvidia".data ∧
    c4Pkg.bad_modules = lineTokens "old1 old2".data ∧
    c4Pkg.bad_module_filenames = lineTokens "old1.o".data ∧
    c4Pkg.kernel_module_build_directory = removeTrailingSlashes "usr/src/nv//".data ∧
    c4Pkg.precompiled_kernel_interface_directory = removeTrailingSlashes "precomp/".data :=
  c4_header_fields st0 "desc one".data "1.0-42".data "nv.o".data "nvidia".data
    "old1 old2".data "old1.o".data "usr/src/nv//".data "precomp/".data
    ["a 0755 INSTALLER_BINARY".data] c4Pkg rfl

/-- Claim C5: an entry line whose file-type token is not in the
recognized set makes parsing fail with that entry's 1-based line
number (9 plus the number of preceding entry lines), returning an
error and hence no Package at all. -/
theorem c5_unrecognized_type : ∀ (st : StatFn) (l1 l2 l3 l4 l5 l6 l7 l8 : Str)
    (pre : List Str) (l : Str) (post : List Str),
    (∀ l9 ∈ pre, goodEntryLine st l9 = true) →
    badTypeLine l = true →
    parse_manifest st (l1 :: l2 :: l3 :: l4 :: l5 :: l6 :: l7 :: l8 :: (pre ++ l :: post)) =
      .error (.invalid (9 + pre.length)) := by
  intro st l1 l2 l3 l4 l5 l6 l7 l8 pre l post hg hb
  rw [parse_manifest, parseEntries_bad pre hg hb 9 post]

/-- Witness for C5: a bad type token on line 10, after one good entry
line. -/
theorem c5_witness :
    parse_manifest st0 (['d'] :: ['v'] :: ['k'] :: ['m'] :: [] :: [] :: ['b'] :: ['p'] ::
      (c5Pre ++ c5Bad :: c5Post)) = .error (.invalid 10) :=
  c5_unrecognized_type st0 ['d'] ['v'] ['k'] ['m'] [] [] ['b'] ['p'] c5Pre c5Bad c5Post
    (by decide) (by decide)

/-- Claim C6, counterexample: `add_package_entry` stores its arguments
verbatim, so calling it with a type tag that has the HAVE_PATH
capability but with no path produces an entry violating the
path-iff-capability invariant — the operation does not itself maintain
the invariant. -/
theorem c6_counterexample : ¬ entryInvariant (c6CexPkg.entries.getD 0 dfltEntry) := by
  decide

/-- Claim C6 as amended: every entry produced by parsing has exactly
one primary type tag bit and has path/target present exactly when the
tag has the corresponding capability; `add_package_entry` preserves
this invariant exactly when the supplied fields themselves satisfy
it. -/
theorem c6_entry_type_invariant :
    (∀ (st : StatFn) (lines : List Str) (p : Package),
       parse_manifest st lines = .ok p → ∀ e ∈ p.entries, entryInvariant e) ∧
    (∀ (st : StatFn) (p : Package) (file : Str) (path : Option Str) (name : Str)
       (target : Option Str) (dst : Option Str) (flags mode : Nat),
       (∀ e ∈ p.entries, entryInvariant e) →
       countTagBits flags = 1 →
       (path.isSome ↔ flags &&& FILE_TYPE_HAVE_PATH ≠ 0) →
       (target.isSome ↔ flags &&& FILE_TYPE_HAVE_TARGET ≠ 0) →
       ∀ e ∈ (add_package_entry st p file path name target dst flags mode).entries,
         entryInvariant e) := by
  constructor
  · intro st lines p h e he
    obtain ⟨l, hl⟩ := parse_manifest_entries h e he
    exact (parseEntryLine_props hl).1
  · intro st p file path name target dst flags mode hp h1 h2 h3 e he
    rw [add_package_entry] at he
    simp only [List.mem_append, List.mem_singleton] at he
    rcases he with he | rfl
    · exact hp e he
    · exact ⟨h1, h2, h3⟩

/-- Witness for C6: a parsed entry and a conforming
`add_package_entry` call both satisfy the invariant. -/
theorem c6_witness :
    entryInvariant (c6Pkg.entries.getD 0 dfltEntry) ∧
    entryInvariant (c6AddPkg.entries.getD 0 dfltEntry) :=
  ⟨c6_entry_type_invariant.1 st0 c6Lines c6Pkg rfl _ (by decide),
   c6_entry_type_invariant.2 st0 pkg0 "nv.ko".data none "nv.ko".data none none
     FILE_TYPE_KERNEL_MODULE_SRC 420 (fun e he => absurd he (by simp [pkg0]))
     (by decide) (by decide) (by decide) _ (by decide)⟩

/-- Claim C7: for every parsed entry, `name` is the basename view into
`file`: it equals `nameOf file` (the maximal slash-free suffix), is a
suffix of `file`, contains no path separator, and equals `file`
whenever `file` contains no separator.  In this embedding `name` is
computed from `file` rather than stored as a separate allocation,
mirroring the pointer-into-`file` representation that `free_package`
never frees independently. -/
theorem c7_name_is_basename_view :
    ∀ (st : StatFn) (lines : List Str) (p : Package),
      parse_manifest st lines = .ok p → ∀ e ∈ p.entries,
      e.name = nameOf e.file ∧ e.name.IsSuffix e.file ∧ '/' ∉ e.name ∧
      ('/' ∉ e.file → e.name = e.file) := by
  intro st lines p h e he
  obtain ⟨l, hl⟩ := parse_manifest_entries h e he
  have hname := (parseEntryLine_props hl).2
  refine ⟨hname, ?_, ?_, ?_⟩
  · rw [hname]; exact nameOf_isSuffix e.file
  · rw [hname]; exact nameOf_no_slash e.file
  · intro hf; rw [hname, nameOf_eq_self hf]

/-- Witness for C7 at a concrete entry with a directory part. -/
theorem c7_witness :
    c7E.name = nameOf c7E.file ∧ c7E.name.IsSuffix c7E.file ∧ '/' ∉ c7E.name ∧
    ('/' ∉ c7E.file → c7E.name = c7E.file) :=
  c7_name_is_basename_view st0 c7Lines c7Pkg rfl c7E (by decide)

/-- Claim C8: in Kernel Module Acquisition, when no precompiled
interface is found the build-tools check precedes the compiler check,
kernel-source location, and any compilation attempt, and a failing
build-tools check aborts before any of those; when a precompiled
interface is found, a link failure is immediately fatal with no
fallback to building from source. -/
theorem c8_module_acquisition_order :
    ∀ (op : Options) (env : Env),
      (env.find_precompiled = false →
        checkPrecedes Event.checkDevTools Event.checkCcVersion
          (install_kernel_module op env).2 = true ∧
        checkPrecedes Event.checkDevTools Event.determineKernelSource
          (install_kernel_module op env).2 = true ∧
        checkPrecedes Event.checkDevTools Event.buildKernelModule
          (install_kernel_module op env).2 = true ∧
        (env.dev_tools_ok = false →
          (install_kernel_module op env).1 = false ∧
          Event.checkCcVersion ∉ (install_kernel_module op env).2 ∧
          Event.determineKernelSource ∉ (install_kernel_module op env).2 ∧
          Event.buildKernelModule ∉ (install_kernel_module op env).2)) ∧
      (env.find_precompiled = true → env.link_ok = false →
        (install_kernel_module op env).1 = false ∧
        Event.buildKernelModule ∉ (install_kernel_module op env).2 ∧
        Event.checkDevTools ∉ (install_kernel_module op env).2 ∧
        Event.checkCcVersion ∉ (install_kernel_module op env).2 ∧
        Event.determineKernelSource ∉ (install_kernel_module op env).2) := by
  intro op env
  unfold install_kernel_module finishModule
  split_ifs with hdet hproc hfp hlink htest hadd <;>
    constructor <;> intro h <;> simp_all <;> decide

/-- Witness for C8 at concrete environments. -/
theorem c8_witness :
    ((install_kernel_module opT env8a).1 = false ∧
      Event.checkCcVersion ∉ (install_kernel_module opT env8a).2 ∧
      Event.determineKernelSource ∉ (install_kernel_module opT env8a).2 ∧
      Event.buildKernelModule ∉ (install_kernel_module opT env8a).2) ∧
    ((install_kernel_module opT env8b).1 = false ∧
      Event.buildKernelModule ∉ (install_kernel_module opT env8b).2 ∧
      Event.checkDevTools ∉ (install_kernel_module opT env8b).2 ∧
      Event.checkCcVersion ∉ (install_kernel_module opT env8b).2 ∧
      Event.determineKernelSource ∉ (install_kernel_module opT env8b).2) :=
  ⟨((c8_module_acquisition_order opT env8a).1 rfl).2.2.2 rfl,
   (c8_module_acquisition_order opT env8b).2 rfl rfl⟩

/-- Claim C9, counterexample: the orchestrator mutates the
configuration object — a run in which dkms is present and the user
accepts registration returns with `dkms` and `no_kernel_module`
changed, so the configuration is not an immutable snapshot. -/
theorem c9_mutation_counterexample :
    (install_from_cwd opT envT).opts ≠ opT := by decide

/-- Claim C9 as amended: in every run, `install_from_cwd` leaves every
configuration field unchanged except `dkms` and `no_kernel_module`,
which the module-tracking stage (stage 9) may rewrite. -/
theorem c9_frame :
    ∀ (op : Options) (env : Env), optFrame op ((install_from_cwd op env).opts) := by
  intro op env
  cases hA : phaseA op env with
  | declined tr op1 =>
    simp only [install_from_cwd, hA]
    have h0 := phaseA_opts op env
    rw [hA] at h0
    simp only [PhaseOut.opts] at h0
    subst h0
    exact ⟨rfl, rfl, rfl, rfl, rfl, rfl, rfl⟩
  | failed tr op1 rh =>
    simp only [install_from_cwd, hA]
    have h0 := phaseA_opts op env
    rw [hA] at h0
    simp only [PhaseOut.opts] at h0
    subst h0
    exact ⟨rfl, rfl, rfl, rfl, rfl, rfl, rfl⟩
  | cont tr op1 =>
    simp only [install_from_cwd, hA]
    have h0 := phaseA_opts op env
    rw [hA] at h0
    simp only [PhaseOut.opts] at h0
    subst h0
    cases hB : phaseB op1 env with
    | declined tr2 op2 =>
      simp only [hB]
      have hf := phaseB_opts_frame op1 env
      rw [hB] at hf
      exact hf
    | failed tr2 op2 rh =>
      simp only [hB]
      have hf := phaseB_opts_frame op1 env
      rw [hB] at hf
      exact hf
    | cont tr2 op2 =>
      simp only [hB]
      have hf := phaseB_opts_frame op1 env
      rw [hB] at hf
      simp only [PhaseOut.opts] at hf
      cases hC : phaseC op2 env with
      | declined tr3 op3 =>
        simp only [hC]
        have h3 := phaseC_opts_eq op2 env _ hC
        simp only [PhaseOut.opts] at h3
        subst h3
        exact hf
      | failed tr3 op3 rh =>
        simp only [hC]
        have h3 := phaseC_opts_eq op2 env _ hC
        simp only [PhaseOut.opts] at h3
        subst h3
        exact hf
      | cont tr3 op3 =>
        simp only [hC]
        have h3 := phaseC_opts_eq op2 env _ hC
        simp only [PhaseOut.opts] at h3
        subst h3
        exact hf

/-- Claim C10: declining approval of the command list (stage 15) exits
through the Declined path in every run that reaches that prompt: the
result is failure, the Package is released, no error message is
emitted, the failed-install hook is never invoked even though the
pre-install hook has already run, and in non-kernel-module-only runs
the existing driver was already uninstalled. -/
theorem c10_decline_command_list :
    ∀ (op : Options) (env : Env),
      env.approve = false →
      Event.approvePrompt ∈ (install_from_cwd op env).trace →
      (install_from_cwd op env).ok = false ∧
      Event.errorMsg ∉ (install_from_cwd op env).trace ∧
      Event.failedInstallHook ∉ (install_from_cwd op env).trace ∧
      Event.freePackage ∈ (install_from_cwd op env).trace ∧
      Event.preInstallHook ∈ (install_from_cwd op env).trace ∧
      (op.kernel_module_only = false →
        Event.uninstallDriver ∈ (install_from_cwd op env).trace) := by
  intro op env happ hm
  unfold install_from_cwd at hm ⊢
  cases hA : phaseA op env with
  | declined tr op1 =>
    simp only [hA] at hm
    exfalso
    rcases List.mem_append.mp hm with h | h
    · exact absurd (phaseA_events_subset op env _ (by rw [hA]; exact h)) (by decide)
    · exact absurd h (by decide)
  | failed tr op1 rh =>
    simp only [hA] at hm
    exfalso
    rcases List.mem_append.mp hm with h | h
    · exact absurd (phaseA_events_subset op env _ (by rw [hA]; exact h)) (by decide)
    · exact absurd (failTail_mem rh _ h) (by decide)
  | cont tr op1 =>
    simp only [hA] at hm ⊢
    have hop1 : op1 = op := by
      have h0 := phaseA_opts op env
      rw [hA] at h0
      exact h0
    have hnotA : ∀ (x : Event), x ∈ tr →
        x = Event.errorMsg ∨ x = Event.failedInstallHook ∨ x = Event.approvePrompt → False := by
      intro x hx hor
      have := phaseA_events_subset op env x (by rw [hA]; exact hx)
      rcases hor with rfl | rfl | rfl <;> revert this <;> decide
    cases hB : phaseB op1 env with
    | declined tr2 op2 =>
      simp only [hB] at hm
      exfalso
      rcases List.mem_append.mp hm with h | h
      · rcases List.mem_append.mp h with h2 | h2
        · exact hnotA _ h2 (Or.inr (Or.inr rfl))
        · exact absurd (phaseB_events_subset op1 env _ (by rw [hB]; exact h2)) (by decide)
      · exact absurd h (by decide)
    | failed tr2 op2 rh =>
      simp only [hB] at hm
      exfalso
      rcases List.mem_append.mp hm with h | h
      · rcases List.mem_append.mp h with h2 | h2
        · exact hnotA _ h2 (Or.inr (Or.inr rfl))
        · exact absurd (phaseB_events_subset op1 env _ (by rw [hB]; exact h2)) (by decide)
      · exact absurd (failTail_mem rh _ h) (by decide)
    | cont tr2 op2 =>
      simp only [hB] at hm ⊢
      have hnotB : ∀ (x : Event), x ∈ tr2 →
          x = Event.errorMsg ∨ x = Event.failedInstallHook ∨ x = Event.approvePrompt → False := by
        intro x hx hor
        have := phaseB_events_subset op1 env x (by rw [hB]; exact hx)
        rcases hor with rfl | rfl | rfl <;> revert this <;> decide
      have hkmoeq : op2.kernel_module_only = op.kernel_module_only := by
        have hf := phaseB_opts_frame op1 env
        rw [hB] at hf
        simp only [PhaseOut.opts] at hf
        rw [hf.1, hop1]
      cases hC : phaseC op2 env with
      | cont tr3 op3 =>
        simp only [hC] at hm
        exfalso
        have hm3 : Event.approvePrompt ∈ tr3 := by
          rcases List.mem_append.mp hm with h | h
          · rcases List.mem_append.mp h with h2 | h2
            · rcases List.mem_append.mp h2 with h3 | h3
              · exact absurd (Or.inr (Or.inr rfl)) (fun hor => hnotA _ h3 hor)
              · exact absurd (Or.inr (Or.inr rfl)) (fun hor => hnotB _ h3 hor)
            · exact h2
          · exact absurd h (by decide)
        exact PhaseOut.noConfusion (phaseC_decline op2 env _ hC happ hm3)
      | failed tr3 op3 rh =>
        simp only [hC] at hm
        exfalso
        have hm3 : Event.approvePrompt ∈ tr3 := by
          rcases List.mem_append.mp hm with h | h
          · rcases List.mem_append.mp h with h2 | h2
            · rcases List.mem_append.mp h2 with h3 | h3
              · exact absurd (Or.inr (Or.inr rfl)) (fun hor => hnotA _ h3 hor)
              · exact absurd (Or.inr (Or.inr rfl)) (fun hor => hnotB _ h3 hor)
            · exact h2
          · exact absurd (failTail_mem rh _ h) (by decide)
        exact PhaseOut.noConfusion (phaseC_decline op2 env _ hC happ hm3)
      | declined tr3 op3 =>
        simp only [hC] at hm ⊢
        have hm3 : Event.approvePrompt ∈ tr3 := by
          rcases List.mem_append.mp hm with h | h
          · rcases List.mem_append.mp h with h2 | h2
            · rcases List.mem_append.mp h2 with h3 | h3
              · exact absurd (Or.inr (Or.inr rfl)) (fun hor => hnotA _ h3 hor)
              · exact absurd (Or.inr (Or.inr rfl)) (fun hor => hnotB _ h3 hor)
            · exact h2
          · exact absurd h (by decide)
        have hdec := phaseC_decline op2 env _ hC happ hm3
        have htr3 : tr3 = uninstallEvents op2 ++ [Event.buildCommandList] ++
            [Event.approvePrompt] := by
          injection hdec
        subst htr3
        refine ⟨by trivial, ?_, ?_, ?_, ?_, ?_⟩
        · intro hmem
          rcases List.mem_append.mp hmem with h | h
          · rcases List.mem_append.mp h with h2 | h2
            · rcases List.mem_append.mp h2 with h3 | h3
              · exact hnotA _ h3 (Or.inl rfl)
              · exact hnotB _ h3 (Or.inl rfl)
            · rcases List.mem_append.mp h2 with h3 | h3
              · rcases List.mem_append.mp h3 with h4 | h4
                · exact absurd (uninstallEvents_mem op2 _ h4) (by decide)
                · exact absurd h4 (by decide)
              · exact absurd h3 (by decide)
          · exact absurd h (by decide)
        · intro hmem
          rcases List.mem_append.mp hmem with h | h
          · rcases List.mem_append.mp h with h2 | h2
            · rcases List.mem_append.mp h2 with h3 | h3
              · exact hnotA _ h3 (Or.inr (Or.inl rfl))
              · exact hnotB _ h3 (Or.inr (Or.inl rfl))
            · rcases List.mem_append.mp h2 with h3 | h3
              · rcases List.mem_append.mp h3 with h4 | h4
                · exact absurd (uninstallEvents_mem op2 _ h4) (by decide)
                · exact absurd h4 (by decide)
              · exact absurd h3 (by decide)
          · exact absurd h (by decide)
        · exact List.mem_append.mpr (Or.inr (by decide))
        · exact List.mem_append.mpr (Or.inl (List.mem_append.mpr (Or.inl
            (List.mem_append.mpr (Or.inl (phaseA_cont_preHook op env tr op1 hA))))))
        · intro hkmo
          have hkmo2 : op2.kernel_module_only = false := by rw [hkmoeq, hkmo]
          refine List.mem_append.mpr (Or.inl (List.mem_append.mpr (Or.inr ?_)))
          refine List.mem_append.mpr (Or.inl (List.mem_append.mpr (Or.inl ?_)))
          unfold uninstallEvents
          rw [hkmo2]
          decide

/-- Witness for C10 at a concrete run declining the command list. -/
theorem c10_witness :
    env10.approve = false ∧
    Event.approvePrompt ∈ (install_from_cwd opT env10).trace ∧
    ((install_from_cwd opT env10).ok = false ∧
      Event.errorMsg ∉ (install_from_cwd opT env10).trace ∧
      Event.failedInstallHook ∉ (install_from_cwd opT env10).trace ∧
      Event.freePackage ∈ (install_from_cwd opT env10).trace ∧
      Event.preInstallHook ∈ (install_from_cwd opT env10).trace ∧
      (opT.kernel_module_only = false →
        Event.uninstallDriver ∈ (install_from_cwd opT env10).trace)) :=
  ⟨rfl, by decide, c10_decline_command_list opT env10 rfl (by decide)⟩

end NvInstaller
